import Mathlib

/-!
Verification of the client-side Trust Tokens protocol state engine of
Igalia/chromium87 against its natural-language specification.

The engine itself (the network service's trust token code) is not part of the
visible sources; the repository carries its browser tests
(`src/content/test/trust_token_browsertest.cc`).  The definitions below are
therefore modelled from the specification (spec.md §3–§7), with the browser
tests taken as the authority wherever they pin down observable behavior.
-/

namespace TrustTokens

/-- Modelled from the spec: §3 "IssuerOrigin / TopLevelOrigin":
scheme+host+port identity, immutable, compared exactly (no wildcarding). -/
structure Origin where
  scheme : String
  host : String
  port : Nat
deriving DecidableEq

/-- Modelled from the spec: §4.6 rule 2's notion of an "HTTP/HTTPS-class
origin (not a local-file or similarly non-network origin)". -/
def Origin.isHttpFamily (o : Origin) : Bool :=
  o.scheme = "https" || o.scheme = "http"

/-- Modelled from the spec: §3 "KeyCommitment": issuer's currently valid
verification keys, protocol batch size and commitment version.  Keys are
opaque; we identify them by numeric ids. -/
structure KeyCommitment where
  keys : List Nat
  batchSize : Nat
  version : Nat
deriving DecidableEq

/-- Modelled from the spec: §3 "Token": opaque single-use credential carrying
the id of the key it was issued under (invariant I1 ties that key to a
commitment at issuance time). -/
structure Token where
  id : Nat
  key : Nat
deriving DecidableEq

/-- Modelled from the spec: §3 "SignedRecord (SRR)": opaque signed payload
plus bound verification key reference; the (issuer, top-level) indexing lives
in the cache, not in the record. -/
structure SignedRecord where
  payload : Nat
  keyRef : Nat
deriving DecidableEq

/-- Modelled from the spec: §3 "OperationDescriptor" operation kinds. -/
inductive OperationKind
  | issuance
  | redemption
  | signing
  | availabilityCheck
deriving DecidableEq

/-- Modelled from the spec: §3 request mode ∈ \x7bcors, no-cors\x7d. -/
inductive RequestMode
  | cors
  | noCors
deriving DecidableEq

/-- Modelled from the spec: §3 refresh policy ∈ \x7bnone, refresh\x7d
(Redemption only). -/
inductive RefreshPolicy
  | keepExisting
  | refresh
deriving DecidableEq

/-- Modelled from the spec: §7 error taxonomy.  `SigningMissingRecord` is the
one addition: §4.7 allows configuring a missing signing record as a hard
failure but names no taxonomy entry for it, so the model introduces one (it is
unreachable in the default configuration). -/
inductive Denial
  | InsecureContext
  | UnsuitableTopLevelOrigin
  | IssuerCapExceeded
  | NoCommitments
  | CommitmentMismatch
  | NoTokensAvailable
  | AlreadyRedeemed
  | RefreshNotPermitted
  | InvalidSigningData
  | ServerRejected
  | SigningMissingRecord
deriving DecidableEq

/-- Modelled from the spec: §6 `Result` — `Success` or a typed failure. -/
inductive OpResult
  | Success
  | Failure (d : Denial)
deriving DecidableEq

/-- Modelled from the spec: §3 "OperationDescriptor" context attributes: the
operation kind, the requesting context's security bit, its top-level browsing
context origin and the requesting context's own origin (used by §4.3's
`requestingOriginIsIssuer`). -/
structure Descriptor where
  kind : OperationKind
  secureContext : Bool
  topLevel : Origin
  contextOrigin : Origin
deriving DecidableEq

/-- Modelled from the spec: §4.6 `check(descriptor) → Eligible |
Denied(reason)`. -/
inductive GateResult
  | Eligible
  | Denied (d : Denial)
deriving DecidableEq

/-- Modelled from the spec: §4.6 Context Eligibility Gate, rules evaluated in
order.  Rule 1: secure context, else `InsecureContext`.  Rule 2: the
top-level origin must be HTTP/HTTPS-class, else `UnsuitableTopLevelOrigin`.
The scope of rule 2 follows §8 and the browsertest
`HasTrustTokenRequiresSuitableTopFrameOrigin`
(src/src/content/test/trust_token_browsertest.cc:796), which require the
suitable-top-level check for read-only availability checks too, against
§4.6's parenthetical exemption; the gate therefore does not consult the
operation kind.  Rule 3 (opacity of the initiating frame's own origin is
never a rejection reason) shows up as the absence of any condition on the
initiator. -/
def gateCheck (d : Descriptor) : GateResult :=
  if !d.secureContext then .Denied .InsecureContext
  else if !d.topLevel.isHttpFamily then .Denied .UnsuitableTopLevelOrigin
  else .Eligible

/-- Modelled from the spec: §9 "per-origin mutable maps (commitments, stores,
caches, tracker sets) are naturally modeled as a mapping keyed by an opaque
origin identity"; §6 requires tolerating a cold/empty store, so each map is
total with an empty default. -/
structure CoreState where
  commitments : Origin → Option KeyCommitment
  tokenStore : Origin → List Token
  srrCache : Origin → Origin → Option SignedRecord
  tracker : Origin → List Origin

/-- Modelled from the spec: §4.4's cap K and §4.7's signing options as policy
constants: the associated-issuer cap (a parameter per §4.4), the fixed
maximum encoded byte length of additional signing data, and whether a missing
signing record is a hard failure (default: it is not). -/
structure Config where
  maxIssuers : Nat
  maxSigningDataBytes : Nat
  signingMissingRecordHardFailure : Bool
deriving DecidableEq

/-- Modelled from the spec: §4.4 recommends K=2 for production-style
defaults; the name mirrors the constant the browser test consults. -/
def kTrustTokenPerToplevelMaxNumberOfAssociatedIssuers : Nat := 2

/-- Modelled from the spec: §4.7's "fixed maximum encoded byte length" for
additional signing data; the name mirrors the constant the browser test
consults (its concrete value is fixed but immaterial to the properties). -/
def kTrustTokenAdditionalSigningDataMaxSizeBytes : Nat := 64

/-- Modelled from the spec: the default non-hard-failure configuration. -/
def defaultConfig : Config :=
  ⟨kTrustTokenPerToplevelMaxNumberOfAssociatedIssuers,
   kTrustTokenAdditionalSigningDataMaxSizeBytes, false⟩

/-- Modelled from the spec: §4.4 Associated Issuer Tracker,
`recordInteraction(topLevel, issuer)`: idempotent insert; a member is a no-op
success; a non-member is inserted while `|set| < K` and rejected with
`IssuerCapExceeded` (issuer not added) once `|set| = K`. -/
def recordInteraction (cfg : Config) (st : CoreState) (top issuer : Origin) :
    Except Denial CoreState :=
  if issuer ∈ st.tracker top then .ok st
  else if (st.tracker top).length < cfg.maxIssuers then
    .ok { st with tracker := fun t =>
            if t = top then issuer :: st.tracker top else st.tracker t }
  else .error .IssuerCapExceeded

/-- Modelled from the spec: §4.2 Token Store `appendBatch` success path's
store mutation — the batch is appended to the issuer's bucket. -/
def appendTokens (st : CoreState) (issuer : Origin) (batch : List Token) :
    CoreState :=
  { st with tokenStore := fun o =>
      if o = issuer then st.tokenStore issuer ++ batch else st.tokenStore o }

/-- Modelled from the spec: §4.2 `appendBatch` validation — "tokens must each
carry a key identifiable in the issuer's current KeyCommitment, else rejected
with `CommitmentMismatch`". -/
def batchMatchesCommitment (c : KeyCommitment) (batch : List Token) : Bool :=
  batch.all (fun t => c.keys.contains t.key)

/-- Modelled from the spec: §4.2 `spendOne(issuer) → Token | Empty` —
atomically removes and returns one token; `none` on an empty bucket is mapped
by the Coordinator to `NoTokensAvailable`. -/
def spendOne (st : CoreState) (issuer : Origin) :
    Option (Token × CoreState) :=
  match st.tokenStore issuer with
  | [] => none
  | t :: rest =>
      some (t, { st with tokenStore := fun o =>
                   if o = issuer then rest else st.tokenStore o })

/-- Modelled from the spec: the Signed Record Cache's write of a record for
one (issuer, top-level) key (invariant I2: at most one record per pair, so a
write replaces). -/
def putRecord (st : CoreState) (issuer top : Origin) (rec : SignedRecord) :
    CoreState :=
  { st with srrCache := fun i t =>
      if i = issuer ∧ t = top then some rec else st.srrCache i t }

/-- Modelled from the spec: §4.3 Signed Record Cache `tryStore`: store
unconditionally when no record exists; with `refreshPolicy = none` fail with
`AlreadyRedeemed` retaining the record; with `refreshPolicy = refresh`
overwrite only when `requestingOriginIsIssuer`, else `RefreshNotPermitted`. -/
def tryStore (st : CoreState) (issuer top : Origin) (rec : SignedRecord)
    (policy : RefreshPolicy) (requestingOriginIsIssuer : Bool) :
    Except Denial CoreState :=
  match st.srrCache issuer top with
  | none => .ok (putRecord st issuer top rec)
  | some _ =>
      match policy with
      | .keepExisting => .error .AlreadyRedeemed
      | .refresh =>
          if requestingOriginIsIssuer then .ok (putRecord st issuer top rec)
          else .error .RefreshNotPermitted

/-- Modelled from the spec: §4.5 Redirect Resolution Policy for one hop: a
same-origin redirect never changes issuer identity; a cross-origin hop
re-targets the operation in `cors` mode and is transparent in `no-cors`
mode. -/
def resolveRedirect (current target : Origin) (mode : RequestMode) : Origin :=
  if target = current then current
  else
    match mode with
    | .cors => target
    | .noCors => current

/-- Modelled from the spec: §4.5 applied to every hop surfaced by the
transport while the request is outstanding (§6: redirects surfaced one at a
time), yielding the issuer identity owning the final response. -/
def resolveIssuer (original : Origin) (mode : RequestMode)
    (hops : List Origin) : Origin :=
  hops.foldl (fun cur target => resolveRedirect cur target mode) original

/-- Modelled from the spec: §4.7 — outcome of an Issuance operation: the
typed result, the issuer identity that owned the operation when it ended
(after any §4.5 re-targeting), and the post-state. -/
structure IssueOutcome where
  result : OpResult
  finalIssuer : Origin
  state : CoreState

/-- Modelled from the spec: §4.7 Issuance response handling against one
issuer: commitments must be present (`NoCommitments`), the server response is
either a protocol-level failure (`ServerRejected`) or a batch validated
against the KeyCommitment (`CommitmentMismatch` on a foreign key) and
appended via `appendBatch`. -/
def finishIssuance (st : CoreState) (issuer : Origin) (serverOk : Bool)
    (batch : List Token) : IssueOutcome :=
  match st.commitments issuer with
  | none => ⟨.Failure .NoCommitments, issuer, st⟩
  | some c =>
      if serverOk then
        if batchMatchesCommitment c batch then
          ⟨.Success, issuer, appendTokens st issuer batch⟩
        else ⟨.Failure .CommitmentMismatch, issuer, st⟩
      else ⟨.Failure .ServerRejected, issuer, st⟩

/-- Modelled from the spec: §4.7 Issuance: Gate → `Tracker.recordInteraction`
→ fail fast with `NoCommitments` when no commitments are present for the
issuer → transport (whose redirect hops are resolved per §4.5) → when a
cross-origin `cors` redirect re-targeted the operation, the downstream
validation (tracker membership, commitment lookup) re-runs against the new
issuer as if it were a fresh operation (§4.5) → response validation and
`Store.appendBatch`.  `serverOk` and `batch` abstract the transport
collaborator's final response (§6). -/
def issue (cfg : Config) (st : CoreState) (d : Descriptor) (issuer : Origin)
    (mode : RequestMode) (hops : List Origin) (serverOk : Bool)
    (batch : List Token) : IssueOutcome :=
  match gateCheck d with
  | .Denied r => ⟨.Failure r, issuer, st⟩
  | .Eligible =>
      match recordInteraction cfg st d.topLevel issuer with
      | .error e => ⟨.Failure e, issuer, st⟩
      | .ok st1 =>
          match st1.commitments issuer with
          | none => ⟨.Failure .NoCommitments, issuer, st1⟩
          | some _ =>
              let fin := resolveIssuer issuer mode hops
              if fin = issuer then finishIssuance st1 issuer serverOk batch
              else
                match recordInteraction cfg st1 d.topLevel fin with
                | .error e => ⟨.Failure e, fin, st1⟩
                | .ok st2 => finishIssuance st2 fin serverOk batch

/-- Modelled from the spec: §4.7 — outcome of a Redemption operation: the
typed result, the issuer identity owning the final response, the token the
operation spent (if it got that far), and the post-state. -/
structure RedeemOutcome where
  result : OpResult
  finalIssuer : Origin
  spentToken : Option Token
  state : CoreState

/-- Modelled from the spec: §4.7 Redemption response handling against one
issuer with an already-spent token: the server response is a protocol-level
failure (`ServerRejected`) or a signed record handed to `Cache.tryStore` per
§4.3, with `requestingOriginIsIssuer` comparing the requesting context's
origin with the issuer. -/
def finishRedemption (st : CoreState) (d : Descriptor) (issuer : Origin)
    (tok : Token) (policy : RefreshPolicy) (serverOk : Bool)
    (rec : SignedRecord) : RedeemOutcome :=
  if serverOk then
    match tryStore st issuer d.topLevel rec policy
        (decide (d.contextOrigin = issuer)) with
    | .ok st2 => ⟨.Success, issuer, some tok, st2⟩
    | .error e => ⟨.Failure e, issuer, some tok, st⟩
  else ⟨.Failure .ServerRejected, issuer, some tok, st⟩

/-- Modelled from the spec: §4.7 Redemption: Gate → `Store.spendOne(issuer)`
(fail fast `NoTokensAvailable` on an empty bucket, before resolving the
refresh policy against the cache) → transport → on response `Cache.tryStore`
per §4.3.  Redirect hops are resolved per §4.5: in `no-cors` mode they are
transparent (the token spent before the redirect and the original issuer's
cache key keep being used), while a cross-origin `cors` redirect re-runs the
redemption as a fresh operation against the new issuer, spending one of that
issuer's tokens. -/
def redeem (_cfg : Config) (st : CoreState) (d : Descriptor) (issuer : Origin)
    (mode : RequestMode) (policy : RefreshPolicy) (hops : List Origin)
    (serverOk : Bool) (rec : SignedRecord) : RedeemOutcome :=
  match gateCheck d with
  | .Denied r => ⟨.Failure r, issuer, none, st⟩
  | .Eligible =>
      match spendOne st issuer with
      | none => ⟨.Failure .NoTokensAvailable, issuer, none, st⟩
      | some (tok, st1) =>
          let fin := resolveIssuer issuer mode hops
          if fin = issuer then
            finishRedemption st1 d issuer tok policy serverOk rec
          else
            match spendOne st1 fin with
            | none => ⟨.Failure .NoTokensAvailable, fin, none, st1⟩
            | some (tok2, st2) =>
                finishRedemption st2 d fin tok2 policy serverOk rec

/-- Modelled from the spec: §4.7 Signing's validity condition on additional
signing data — at most the fixed maximum encoded byte length and no control
characters incompatible with header transport (the data is measured after
encoding, as a byte sequence). -/
def isValidSigningData (cfg : Config) (data : List Nat) : Bool :=
  decide (data.length ≤ cfg.maxSigningDataBytes) &&
    data.all (fun b => decide (32 ≤ b) && decide (b ≠ 127))

/-- Modelled from the spec: §4.7 — outcome of a Signing operation: the typed
result, the (issuer, record) proofs attached for issuers with a cache hit,
whether the request was handed to the transport at all, and the
post-state. -/
structure SignOutcome where
  result : OpResult
  attachedProofs : List (Origin × SignedRecord)
  sentRequest : Bool
  state : CoreState

/-- Modelled from the spec: §4.7 Signing: Gate → additional signing data is
validated before any network activity (`InvalidSigningData`) → for each
listed issuer, `Cache.lookup(issuer, topLevel)`; issuers with no cached
record are silently skipped unless the configuration treats that as a hard
failure → proofs are attached for issuers with a cache hit → Succeeded once
the request completes, regardless of whether any issuer had a cached record
(the request degrades to "send unsigned").  Transport-level failure is
reported by the transport collaborator itself and is outside this core's
taxonomy (§7), so request completion is not a parameter. -/
def sign (cfg : Config) (st : CoreState) (d : Descriptor)
    (issuers : List Origin) (data : List Nat) : SignOutcome :=
  match gateCheck d with
  | .Denied r => ⟨.Failure r, [], false, st⟩
  | .Eligible =>
      if isValidSigningData cfg data then
        let proofs := issuers.filterMap
          (fun i => (st.srrCache i d.topLevel).map (fun r => (i, r)))
        if cfg.signingMissingRecordHardFailure &&
            issuers.any (fun i => (st.srrCache i d.topLevel).isNone) then
          ⟨.Failure .SigningMissingRecord, [], false, st⟩
        else ⟨.Success, proofs, true, st⟩
      else ⟨.Failure .InvalidSigningData, [], false, st⟩

/-- Modelled from the spec: §6 — outcome of the read-only `hasToken`
availability check: the typed result, the availability answer, and the
post-state (the check still invokes the Gate and the Tracker, and §4.4/§9
record that it grows the associated-issuer set like an issuance does). -/
structure CheckOutcome where
  result : OpResult
  hasToken : Bool
  state : CoreState

/-- Modelled from the spec: §6 `hasToken(issuer)` — a read-only availability
check that still invokes the Tracker and Gate; per §4.4 it calls
`recordInteraction` before proceeding, and it answers whether the issuer's
bucket is non-empty. -/
def hasTrustToken (cfg : Config) (st : CoreState) (d : Descriptor)
    (issuer : Origin) : CheckOutcome :=
  match gateCheck d with
  | .Denied r => ⟨.Failure r, false, st⟩
  | .Eligible =>
      match recordInteraction cfg st d.topLevel issuer with
      | .error e => ⟨.Failure e, false, st⟩
      | .ok st1 => ⟨.Success, !(st1.tokenStore issuer).isEmpty, st1⟩

/-- The cold store of §6: no commitments, no tokens, no records, no tracked
issuers. -/
def emptyState : CoreState :=
  ⟨fun _ => none, fun _ => [], fun _ _ => none, fun _ => []⟩

/-- Test issuer origin, mirroring the browsertest's `https://a.test`. -/
def originA : Origin := ⟨"https", "a.test", 443⟩

/-- Test issuer origin, mirroring the browsertest's `https://b.test`. -/
def originB : Origin := ⟨"https", "b.test", 443⟩

/-- A local-file origin, as produced by the browsertest's `GetTestUrl`
navigation to a `file://` URL. -/
def fileOrigin : Origin := ⟨"file", "", 0⟩

/-- A commitment trusting keys 5 and 7 with batch size 10. -/
def testCommitment : KeyCommitment := ⟨[5, 7], 10, 1⟩

/-- A token issued under key 5 of `testCommitment`. -/
def tokenFive : Token := ⟨0, 5⟩

/-- A second token issued under key 7 of `testCommitment`. -/
def tokenSeven : Token := ⟨1, 7⟩

/-- A concrete signed record. -/
def recordOne : SignedRecord := ⟨100, 5⟩

/-- A second concrete signed record, distinct from `recordOne`. -/
def recordTwo : SignedRecord := ⟨200, 7⟩

/-- A third test issuer origin. -/
def originC : Origin := ⟨"https", "c.test", 443⟩

/-- An insecure-context descriptor (the browsertest's `insecure.test` page). -/
def insecureDescriptor : Descriptor := ⟨.issuance, false, originA, originA⟩

/-- A secure descriptor whose top-level browsing context is a local-file
origin (the browsertest's `file://` navigations; file URLs are secure
contexts but not HTTP-family). -/
def fileTopDescriptor : Descriptor :=
  ⟨.availabilityCheck, true, fileOrigin, fileOrigin⟩

/-- A secure descriptor for a context on `https://a.test` whose top-level
frame is also `https://a.test`. -/
def descriptorA : Descriptor := ⟨.issuance, true, originA, originA⟩

/-- A secure redemption descriptor for a context on `https://a.test` under an
`https://a.test` top-level frame. -/
def descriptorRedeemA : Descriptor := ⟨.redemption, true, originA, originA⟩

/-- A secure redemption descriptor for a context on `https://b.test` under an
`https://a.test` top-level frame — a requesting context that is not the
issuer `https://a.test`. -/
def descriptorRedeemFromB : Descriptor := ⟨.redemption, true, originA, originB⟩

/-- A secure signing descriptor for a context on `https://a.test`. -/
def descriptorSignA : Descriptor := ⟨.signing, true, originA, originA⟩

/-- A state whose associated-issuer set for the `https://a.test` top level is
already at the default cap K = 2. -/
def trackerFullState : CoreState :=
  { emptyState with tracker := fun t =>
      if t = originA then [originA, originB] else [] }

/-- A state holding one `https://a.test` token and a signed record for the
(`https://a.test`, `https://a.test`) pair — the post-state of the
browsertest's issue-then-redeem preamble. -/
def redeemedState : CoreState :=
  { emptyState with
      tokenStore := fun o => if o = originA then [tokenFive] else [],
      srrCache := fun i t =>
        if i = originA ∧ t = originA then some recordOne else none }

/-- A state holding tokens only for `https://b.test` while a record exists
for (`https://a.test`, `https://a.test`). -/
def tokensForBState : CoreState :=
  { emptyState with
      tokenStore := fun o => if o = originB then [tokenFive] else [],
      srrCache := fun i t =>
        if i = originA ∧ t = originA then some recordOne else none }

/-- A state holding exactly one `https://a.test` token and nothing else. -/
def oneTokenState : CoreState :=
  { emptyState with
      tokenStore := fun o => if o = originA then [tokenFive] else [] }

/-- A state with identical commitments for `https://a.test` and
`https://b.test`, both already associated with the `https://a.test` top
level, and empty token buckets — the browsertest's redirect-issuance
setup. -/
def commitmentsABState : CoreState :=
  { emptyState with
      commitments := fun o =>
        if o = originA ∨ o = originB then some testCommitment else none,
      tracker := fun t => if t = originA then [originA, originB] else [] }

/-- Rule 1 of the gate: an insecure context is denied `InsecureContext`
whatever the rest of the descriptor says. -/
theorem gateCheck_insecure (d : Descriptor) (h : d.secureContext = false) :
    gateCheck d = .Denied .InsecureContext := by
  simp [gateCheck, h]

/-- Rule 2 of the gate: a secure context whose top-level origin is not
HTTP-family is denied `UnsuitableTopLevelOrigin`. -/
theorem gateCheck_unsuitable (d : Descriptor) (h1 : d.secureContext = true)
    (h2 : d.topLevel.isHttpFamily = false) :
    gateCheck d = .Denied .UnsuitableTopLevelOrigin := by
  simp [gateCheck, h1, h2]

/-- A secure context under an HTTP-family top-level origin passes the gate. -/
theorem gateCheck_eligible (d : Descriptor) (h1 : d.secureContext = true)
    (h2 : d.topLevel.isHttpFamily = true) : gateCheck d = .Eligible := by
  simp [gateCheck, h1, h2]

/-- `recordInteraction` is a stateless no-op success on an issuer that is
already a member of the top-level origin's associated-issuer set. -/
theorem recordInteraction_of_mem (cfg : Config) (st : CoreState)
    (top issuer : Origin) (h : issuer ∈ st.tracker top) :
    recordInteraction cfg st top issuer = .ok st := by
  simp [recordInteraction, h]

/-- In `no-cors` mode, redirect hops never change the issuer identity. -/
theorem resolveIssuer_noCors (original : Origin) (hops : List Origin) :
    resolveIssuer original .noCors hops = original := by
  induction hops with
  | nil => rfl
  | cons t rest ih =>
      simp only [resolveIssuer, List.foldl_cons] at ih ⊢
      have : resolveRedirect original t .noCors = original := by
        simp [resolveRedirect]
      rw [this, ih]

/-- In `cors` mode, a single cross-origin hop re-targets the operation to the
redirect target. -/
theorem resolveIssuer_cors_single (original target : Origin)
    (h : target ≠ original) : resolveIssuer original .cors [target] = target := by
  simp [resolveIssuer, resolveRedirect, h]

/-- `spendOne` on a non-empty bucket returns the bucket's first token and
removes exactly it. -/
theorem spendOne_cons (st : CoreState) (issuer : Origin) (tok : Token)
    (rest : List Token) (h : st.tokenStore issuer = tok :: rest) :
    spendOne st issuer = some (tok,
      { st with tokenStore := fun o =>
          if o = issuer then rest else st.tokenStore o }) := by
  simp [spendOne, h]

/-- C9: for every operation kind — Issuance, Redemption, Signing, and
read-only availability checks alike — a requesting context that is not a
secure context is denied with `InsecureContext`, before any state
mutation. -/
theorem claim_C9_insecure_context_denied (cfg : Config) (st : CoreState)
    (d : Descriptor) (issuer : Origin) (mode : RequestMode)
    (policy : RefreshPolicy) (hops : List Origin) (serverOk : Bool)
    (batch : List Token) (issuers : List Origin) (data : List Nat)
    (rec : SignedRecord) (h : d.secureContext = false) :
    ((issue cfg st d issuer mode hops serverOk batch).result
        = .Failure .InsecureContext ∧
     (issue cfg st d issuer mode hops serverOk batch).state = st) ∧
    ((redeem cfg st d issuer mode policy hops serverOk rec).result
        = .Failure .InsecureContext ∧
     (redeem cfg st d issuer mode policy hops serverOk rec).state = st ∧
     (redeem cfg st d issuer mode policy hops serverOk rec).spentToken = none) ∧
    ((sign cfg st d issuers data).result = .Failure .InsecureContext ∧
     (sign cfg st d issuers data).state = st ∧
     (sign cfg st d issuers data).sentRequest = false) ∧
    ((hasTrustToken cfg st d issuer).result = .Failure .InsecureContext ∧
     (hasTrustToken cfg st d issuer).state = st) := by
  have hg : gateCheck d = .Denied .InsecureContext := gateCheck_insecure d h
  refine ⟨⟨?_, ?_⟩, ⟨?_, ?_, ?_⟩, ⟨?_, ?_, ?_⟩, ⟨?_, ?_⟩⟩ <;>
    simp [issue, redeem, sign, hasTrustToken, hg]

/-- C9 witness: the browsertest's insecure page, concretely: every operation
kind is denied `InsecureContext`. -/
theorem claim_C9_witness :
    insecureDescriptor.secureContext = false ∧
    (issue defaultConfig emptyState insecureDescriptor originA .cors [] true
        []).result = .Failure .InsecureContext ∧
    (redeem defaultConfig emptyState insecureDescriptor originA .cors
        .keepExisting [] true recordOne).result = .Failure .InsecureContext ∧
    (sign defaultConfig emptyState insecureDescriptor [originA] []).result
        = .Failure .InsecureContext ∧
    (hasTrustToken defaultConfig emptyState insecureDescriptor originA).result
        = .Failure .InsecureContext := by
  have h := claim_C9_insecure_context_denied defaultConfig emptyState
    insecureDescriptor originA .cors .keepExisting [] true [] [originA] []
    recordOne rfl
  exact ⟨rfl, h.1.1, h.2.1.1, h.2.2.1.1, h.2.2.2.1⟩

/-- C5 counterexample: the claim says a `hasToken` availability check from a
secure context whose top-level origin is a local-file origin is not denied
with `UnsuitableTopLevelOrigin`; concretely the engine denies exactly that
way (the browsertest `HasTrustTokenRequiresSuitableTopFrameOrigin` observes
the rejection). -/
theorem claim_C5_counterexample :
    fileTopDescriptor.kind = .availabilityCheck ∧
    fileTopDescriptor.secureContext = true ∧
    fileTopDescriptor.topLevel.isHttpFamily = false ∧
    (hasTrustToken defaultConfig emptyState fileTopDescriptor originA).result
        = .Failure .UnsuitableTopLevelOrigin := by
  refine ⟨rfl, rfl, by decide, by decide⟩

/-- C5 amended: the HTTP/HTTPS-class top-level-origin requirement (Gate rule
2) applies to Issuance, Redemption, Signing, and also to read-only
availability checks: a `hasToken` check invoked from a secure context whose
top-level origin is non-HTTP(S) is denied with `UnsuitableTopLevelOrigin`,
before any state mutation. -/
theorem claim_C5_unsuitable_toplevel_denied (cfg : Config) (st : CoreState)
    (d : Descriptor) (issuer : Origin) (mode : RequestMode)
    (policy : RefreshPolicy) (hops : List Origin) (serverOk : Bool)
    (batch : List Token) (issuers : List Origin) (data : List Nat)
    (rec : SignedRecord) (h1 : d.secureContext = true)
    (h2 : d.topLevel.isHttpFamily = false) :
    ((hasTrustToken cfg st d issuer).result
        = .Failure .UnsuitableTopLevelOrigin ∧
     (hasTrustToken cfg st d issuer).state = st) ∧
    ((issue cfg st d issuer mode hops serverOk batch).result
        = .Failure .UnsuitableTopLevelOrigin ∧
     (issue cfg st d issuer mode hops serverOk batch).state = st) ∧
    ((redeem cfg st d issuer mode policy hops serverOk rec).result
        = .Failure .UnsuitableTopLevelOrigin ∧
     (redeem cfg st d issuer mode policy hops serverOk rec).state = st) ∧
    ((sign cfg st d issuers data).result
        = .Failure .UnsuitableTopLevelOrigin ∧
     (sign cfg st d issuers data).state = st) := by
  have hg : gateCheck d = .Denied .UnsuitableTopLevelOrigin :=
    gateCheck_unsuitable d h1 h2
  refine ⟨⟨?_, ?_⟩, ⟨?_, ?_⟩, ⟨?_, ?_⟩, ⟨?_, ?_⟩⟩ <;>
    simp [issue, redeem, sign, hasTrustToken, hg]

/-- C5 witness: the file-origin top frame of the browsertest, concretely:
the availability check is denied `UnsuitableTopLevelOrigin`. -/
theorem claim_C5_witness :
    fileTopDescriptor.secureContext = true ∧
    fileTopDescriptor.topLevel.isHttpFamily = false ∧
    (hasTrustToken defaultConfig emptyState fileTopDescriptor originA).result
        = .Failure .UnsuitableTopLevelOrigin := by
  have h := claim_C5_unsuitable_toplevel_denied defaultConfig emptyState
    fileTopDescriptor originA .cors .keepExisting [] true [] [originA] []
    recordOne rfl (by decide)
  exact ⟨rfl, by decide, h.1.1⟩

/-- C1: for every Issuance whose request is redirected cross-origin from
issuer A to issuer B: under request mode `cors` the operation's issuer
identity becomes B and on success tokens are stored under B and none under A;
under `no-cors` the operation retains issuer A and on success tokens are
stored under A and none under B. -/
theorem claim_C1_cross_origin_redirect_issuance (cfg : Config)
    (st : CoreState) (d : Descriptor) (A B : Origin)
    (cA cB : KeyCommitment) (batch : List Token)
    (hg : gateCheck d = .Eligible) (hne : B ≠ A)
    (hA : A ∈ st.tracker d.topLevel) (hB : B ∈ st.tracker d.topLevel)
    (hcA : st.commitments A = some cA) (hcB : st.commitments B = some cB)
    (hbatchA : batchMatchesCommitment cA batch = true)
    (hbatchB : batchMatchesCommitment cB batch = true)
    (hemptyA : st.tokenStore A = []) (hemptyB : st.tokenStore B = [])
    (hbatchne : batch ≠ []) :
    ((issue cfg st d A .cors [B] true batch).result = .Success ∧
     (issue cfg st d A .cors [B] true batch).finalIssuer = B ∧
     (issue cfg st d A .cors [B] true batch).state.tokenStore B = batch ∧
     (issue cfg st d A .cors [B] true batch).state.tokenStore B ≠ [] ∧
     (issue cfg st d A .cors [B] true batch).state.tokenStore A = []) ∧
    ((issue cfg st d A .noCors [B] true batch).result = .Success ∧
     (issue cfg st d A .noCors [B] true batch).finalIssuer = A ∧
     (issue cfg st d A .noCors [B] true batch).state.tokenStore A = batch ∧
     (issue cfg st d A .noCors [B] true batch).state.tokenStore A ≠ [] ∧
     (issue cfg st d A .noCors [B] true batch).state.tokenStore B = []) := by
  have hriA := recordInteraction_of_mem cfg st d.topLevel A hA
  have hriB := recordInteraction_of_mem cfg st d.topLevel B hB
  have hfinc : resolveIssuer A .cors [B] = B := resolveIssuer_cors_single A B hne
  have hfinn : resolveIssuer A .noCors [B] = A := resolveIssuer_noCors A [B]
  have hAB : A ≠ B := Ne.symm hne
  constructor
  · refine ⟨?_, ?_, ?_, ?_, ?_⟩ <;>
      simp [issue, hg, hriA, hriB, hfinc, hne, finishIssuance, hcA, hcB,
        hbatchB, appendTokens, hemptyA, hemptyB, hAB, hbatchne]
  · refine ⟨?_, ?_, ?_, ?_, ?_⟩ <;>
      simp [issue, hg, hriA, hfinn, finishIssuance, hcA, hbatchA,
        appendTokens, hemptyA, hemptyB, hAB, hne, hbatchne]

/-- C1 witness: the browsertest's redirect `a.test → b.test`, concretely: in
`cors` mode the tokens land under `b.test` with none under `a.test`, and in
`no-cors` mode under `a.test` with none under `b.test`. -/
theorem claim_C1_witness :
    (issue defaultConfig commitmentsABState descriptorA originA .cors
        [originB] true [tokenFive]).result = .Success ∧
    (issue defaultConfig commitmentsABState descriptorA originA .cors
        [originB] true [tokenFive]).finalIssuer = originB ∧
    (issue defaultConfig commitmentsABState descriptorA originA .cors
        [originB] true [tokenFive]).state.tokenStore originB = [tokenFive] ∧
    (issue defaultConfig commitmentsABState descriptorA originA .cors
        [originB] true [tokenFive]).state.tokenStore originA = [] ∧
    (issue defaultConfig commitmentsABState descriptorA originA .noCors
        [originB] true [tokenFive]).result = .Success ∧
    (issue defaultConfig commitmentsABState descriptorA originA .noCors
        [originB] true [tokenFive]).finalIssuer = originA ∧
    (issue defaultConfig commitmentsABState descriptorA originA .noCors
        [originB] true [tokenFive]).state.tokenStore originA = [tokenFive] ∧
    (issue defaultConfig commitmentsABState descriptorA originA .noCors
        [originB] true [tokenFive]).state.tokenStore originB = [] := by
  have h := claim_C1_cross_origin_redirect_issuance defaultConfig
    commitmentsABState descriptorA originA originB testCommitment
    testCommitment [tokenFive] (by decide) (by decide) (by decide)
    (by decide) (by decide) (by decide) (by decide) (by decide) (by decide)
    (by decide) (by decide)
  exact ⟨h.1.1, h.1.2.1, h.1.2.2.1, h.1.2.2.2.2, h.2.1, h.2.2.1,
    h.2.2.2.1, h.2.2.2.2.2⟩

/-- C2: for every Redemption against issuer X with `refreshPolicy = refresh`
when a signed record already exists for (X, topLevel): the operation succeeds
and overwrites the record when the requesting context's origin equals X, and
otherwise fails with `RefreshNotPermitted` leaving the existing record
unchanged. -/
theorem claim_C2_refresh_requires_issuer_context (cfg : Config)
    (st : CoreState) (d : Descriptor) (issuer : Origin) (mode : RequestMode)
    (tok : Token) (rest : List Token) (rec oldRec : SignedRecord)
    (hg : gateCheck d = .Eligible)
    (hbucket : st.tokenStore issuer = tok :: rest)
    (hrec : st.srrCache issuer d.topLevel = some oldRec) :
    (d.contextOrigin = issuer →
      (redeem cfg st d issuer mode .refresh [] true rec).result = .Success ∧
      (redeem cfg st d issuer mode .refresh [] true rec).state.srrCache
          issuer d.topLevel = some rec) ∧
    (d.contextOrigin ≠ issuer →
      (redeem cfg st d issuer mode .refresh [] true rec).result
          = .Failure .RefreshNotPermitted ∧
      (redeem cfg st d issuer mode .refresh [] true rec).state.srrCache
          issuer d.topLevel = some oldRec ∧
      (∀ i t,
        (redeem cfg st d issuer mode .refresh [] true rec).state.srrCache i t
          = st.srrCache i t)) := by
  have hs := spendOne_cons st issuer tok rest hbucket
  have hfin : resolveIssuer issuer mode [] = issuer := rfl
  constructor
  · intro hctx
    constructor <;>
      simp [redeem, hg, hs, hfin, finishRedemption, tryStore, hrec, hctx,
        putRecord]
  · intro hctx
    refine ⟨?_, ?_, ?_⟩ <;>
      simp [redeem, hg, hs, hfin, finishRedemption, tryStore, hrec, hctx]

/-- C2 witness: the browsertest's refresh pair, concretely: refreshing from
the issuer's own context overwrites the record, and refreshing from a
`b.test` context fails with `RefreshNotPermitted` keeping the old record. -/
theorem claim_C2_witness :
    descriptorRedeemA.contextOrigin = originA ∧
    (redeem defaultConfig redeemedState descriptorRedeemA originA .cors
        .refresh [] true recordTwo).result = .Success ∧
    (redeem defaultConfig redeemedState descriptorRedeemA originA .cors
        .refresh [] true recordTwo).state.srrCache originA originA
        = some recordTwo ∧
    descriptorRedeemFromB.contextOrigin ≠ originA ∧
    (redeem defaultConfig redeemedState descriptorRedeemFromB originA .cors
        .refresh [] true recordTwo).result = .Failure .RefreshNotPermitted ∧
    (redeem defaultConfig redeemedState descriptorRedeemFromB originA .cors
        .refresh [] true recordTwo).state.srrCache originA originA
        = some recordOne := by
  have h1 := (claim_C2_refresh_requires_issuer_context defaultConfig
    redeemedState descriptorRedeemA originA .cors tokenFive [] recordTwo
    recordOne (by decide) (by decide) (by decide)).1 (by decide)
  have h2 := (claim_C2_refresh_requires_issuer_context defaultConfig
    redeemedState descriptorRedeemFromB originA .cors tokenFive [] recordTwo
    recordOne (by decide) (by decide) (by decide)).2 (by decide)
  exact ⟨rfl, h1.1, h1.2, by decide, h2.1, h2.2.1⟩

/-- C3 counterexample: the claim asserts that a Redemption hitting an
existing record with `refreshPolicy = none` performs no state mutation;
concretely, with one `a.test` token in store and a record already cached, the
operation fails with `AlreadyRedeemed` and retains the record, but the token
spent by the fail-fast `spendOne` step (which §4.7 places before the cache
policy is resolved) is gone from the store. -/
theorem claim_C3_counterexample :
    redeemedState.srrCache originA originA = some recordOne ∧
    redeemedState.tokenStore originA = [tokenFive] ∧
    (redeem defaultConfig redeemedState descriptorRedeemA originA .cors
        .keepExisting [] true recordTwo).result = .Failure .AlreadyRedeemed ∧
    (redeem defaultConfig redeemedState descriptorRedeemA originA .cors
        .keepExisting [] true recordTwo).state.srrCache originA originA
        = some recordOne ∧
    (redeem defaultConfig redeemedState descriptorRedeemA originA .cors
        .keepExisting [] true recordTwo).state.tokenStore originA = [] := by
  refine ⟨by decide, by decide, by decide, by decide, by decide⟩

/-- C3 amended: for every Redemption against issuer X with `refreshPolicy =
none` when a signed record already exists for (X, topLevel), from any
requesting context: the operation fails with `AlreadyRedeemed` and the
existing record is retained unchanged — the cache, the tracker and the
commitments are not mutated — while the fail-fast `spendOne` step that §4.7
runs before resolving the cache policy has consumed one token of X's
bucket. -/
theorem claim_C3_already_redeemed_retains_record (cfg : Config)
    (st : CoreState) (d : Descriptor) (issuer : Origin) (mode : RequestMode)
    (tok : Token) (rest : List Token) (rec oldRec : SignedRecord)
    (hg : gateCheck d = .Eligible)
    (hbucket : st.tokenStore issuer = tok :: rest)
    (hrec : st.srrCache issuer d.topLevel = some oldRec) :
    (redeem cfg st d issuer mode .keepExisting [] true rec).result
        = .Failure .AlreadyRedeemed ∧
    (redeem cfg st d issuer mode .keepExisting [] true rec).state.srrCache
        issuer d.topLevel = some oldRec ∧
    (∀ i t,
      (redeem cfg st d issuer mode .keepExisting [] true rec).state.srrCache
          i t = st.srrCache i t) ∧
    (∀ o,
      (redeem cfg st d issuer mode .keepExisting [] true rec).state.tracker o
        = st.tracker o) ∧
    (∀ o,
      (redeem cfg st d issuer mode .keepExisting [] true
          rec).state.commitments o = st.commitments o) ∧
    (redeem cfg st d issuer mode .keepExisting [] true rec).state.tokenStore
        issuer = rest ∧
    (∀ o, o ≠ issuer →
      (redeem cfg st d issuer mode .keepExisting [] true rec).state.tokenStore
          o = st.tokenStore o) := by
  have hs := spendOne_cons st issuer tok rest hbucket
  have hfin : resolveIssuer issuer mode [] = issuer := rfl
  refine ⟨?_, ?_, ?_, ?_, ?_, ?_, ?_⟩
  · simp [redeem, hg, hs, hfin, finishRedemption, tryStore, hrec]
  · simp [redeem, hg, hs, hfin, finishRedemption, tryStore, hrec]
  · simp [redeem, hg, hs, hfin, finishRedemption, tryStore, hrec]
  · simp [redeem, hg, hs, hfin, finishRedemption, tryStore, hrec]
  · simp [redeem, hg, hs, hfin, finishRedemption, tryStore, hrec]
  · simp [redeem, hg, hs, hfin, finishRedemption, tryStore, hrec]
  · intro o ho
    simp [redeem, hg, hs, hfin, finishRedemption, tryStore, hrec, ho]

/-- C3 witness: the browsertest's second redemption, concretely: it fails
with `AlreadyRedeemed` and the cached record survives unchanged. -/
theorem claim_C3_witness :
    redeemedState.srrCache originA descriptorRedeemA.topLevel
        = some recordOne ∧
    (redeem defaultConfig redeemedState descriptorRedeemA originA .cors
        .keepExisting [] true recordTwo).result
        = .Failure .AlreadyRedeemed ∧
    (redeem defaultConfig redeemedState descriptorRedeemA originA .cors
        .keepExisting [] true recordTwo).state.srrCache originA
        descriptorRedeemA.topLevel = some recordOne := by
  have h := claim_C3_already_redeemed_retains_record defaultConfig
    redeemedState descriptorRedeemA originA .cors tokenFive [] recordTwo
    recordOne (by decide) (by decide) (by decide)
  exact ⟨by decide, h.1, h.2.1⟩

/-- C4: for every top-level origin the associated-issuer set never exceeds
cardinality K: once K distinct issuers are recorded, `recordInteraction` for
a further distinct issuer always fails with `IssuerCapExceeded` and does not
add the issuer (an Issuance hitting the cap leaves the state untouched),
`recordInteraction` for an issuer already a member is a no-op that succeeds,
and membership is append-only. -/
theorem claim_C4_associated_issuer_cap (cfg : Config) (st : CoreState)
    (top issuer : Origin) (d : Descriptor) (mode : RequestMode)
    (hops : List Origin) (serverOk : Bool) (batch : List Token) :
    ((st.tracker top).length = cfg.maxIssuers → issuer ∉ st.tracker top →
      recordInteraction cfg st top issuer = .error .IssuerCapExceeded) ∧
    (issuer ∈ st.tracker top → recordInteraction cfg st top issuer = .ok st) ∧
    (∀ st', recordInteraction cfg st top issuer = .ok st' →
      ((∀ i ∈ st.tracker top, i ∈ st'.tracker top) ∧
       ((st.tracker top).length ≤ cfg.maxIssuers →
         (st'.tracker top).length ≤ cfg.maxIssuers) ∧
       (∀ t, t ≠ top → st'.tracker t = st.tracker t))) ∧
    (gateCheck d = .Eligible →
      (st.tracker d.topLevel).length = cfg.maxIssuers →
      issuer ∉ st.tracker d.topLevel →
      (issue cfg st d issuer mode hops serverOk batch).result
          = .Failure .IssuerCapExceeded ∧
      (issue cfg st d issuer mode hops serverOk batch).state = st) := by
  refine ⟨?_, ?_, ?_, ?_⟩
  · intro hlen hmem
    simp [recordInteraction, hmem, hlen]
  · intro hmem
    simp [recordInteraction, hmem]
  · intro st' hok
    by_cases hmem : issuer ∈ st.tracker top
    · simp [recordInteraction, hmem] at hok
      subst hok
      exact ⟨fun i hi => hi, fun h => h, fun t _ => rfl⟩
    · by_cases hlt : (st.tracker top).length < cfg.maxIssuers
      · simp [recordInteraction, hmem, hlt] at hok
        subst hok
        refine ⟨?_, ?_, ?_⟩
        · intro i hi
          simp
          exact Or.inr hi
        · intro _
          simp
          omega
        · intro t ht
          simp [ht]
      · simp [recordInteraction, hmem, hlt] at hok
  · intro hg hlen hmem
    have hri : recordInteraction cfg st d.topLevel issuer
        = .error .IssuerCapExceeded := by
      simp [recordInteraction, hmem, hlen]
    constructor <;> simp [issue, hg, hri]

/-- C4 witness: with the default cap K = 2 and `a.test`, `b.test` already
associated, a third distinct issuer `c.test` is rejected with
`IssuerCapExceeded` while re-recording the member `b.test` is a no-op
success. -/
theorem claim_C4_witness :
    (trackerFullState.tracker originA).length = defaultConfig.maxIssuers ∧
    originC ∉ trackerFullState.tracker originA ∧
    recordInteraction defaultConfig trackerFullState originA originC
        = .error .IssuerCapExceeded ∧
    originB ∈ trackerFullState.tracker originA ∧
    recordInteraction defaultConfig trackerFullState originA originB
        = .ok trackerFullState := by
  refine ⟨by decide, by decide, ?_, by decide, ?_⟩
  · exact (claim_C4_associated_issuer_cap defaultConfig trackerFullState
      originA originC descriptorA .cors [] true []).1 (by decide) (by decide)
  · exact (claim_C4_associated_issuer_cap defaultConfig trackerFullState
      originA originB descriptorA .cors [] true []).2.1 (by decide)

/-- C6: for every Signing operation whose additional signing data exceeds the
fixed maximum encoded byte length, or contains control characters
incompatible with header transport, the operation fails with
`Denied(InvalidSigningData)` before any network activity occurs (nothing is
sent and the state is untouched). -/
theorem claim_C6_invalid_signing_data (cfg : Config) (st : CoreState)
    (d : Descriptor) (issuers : List Origin) (data : List Nat)
    (hg : gateCheck d = .Eligible)
    (hbad : cfg.maxSigningDataBytes < data.length ∨
      ∃ b ∈ data, b < 32 ∨ b = 127) :
    (sign cfg st d issuers data).result = .Failure .InvalidSigningData ∧
    (sign cfg st d issuers data).sentRequest = false ∧
    (sign cfg st d issuers data).state = st ∧
    (sign cfg st d issuers data).attachedProofs = [] := by
  have hv : isValidSigningData cfg data = false := by
    unfold isValidSigningData
    rcases hbad with h | ⟨b, hb, hcase⟩
    · simp [Nat.not_le.mpr h]
    · have hbfalse : ¬ (decide (32 ≤ b) && decide (b ≠ 127)) = true := by
        rcases hcase with h1 | h1
        · simp
          intro h2
          omega
        · simp [h1]
      refine Bool.and_eq_false_iff.mpr (Or.inr ?_)
      exact List.all_eq_false.mpr ⟨b, hb, hbfalse⟩
  refine ⟨?_, ?_, ?_, ?_⟩ <;> simp [sign, hg, hv]

/-- C6 witness: the browsertest's two rejected payloads, concretely: a byte
sequence longer than the maximum once encoded, and a carriage-return byte,
are both denied `InvalidSigningData` with no request sent. -/
theorem claim_C6_witness :
    defaultConfig.maxSigningDataBytes < (List.replicate 65 (65 : Nat)).length ∧
    (sign defaultConfig emptyState descriptorSignA [originA]
        (List.replicate 65 65)).result = .Failure .InvalidSigningData ∧
    (sign defaultConfig emptyState descriptorSignA [originA]
        (List.replicate 65 65)).sentRequest = false ∧
    (13 : Nat) < 32 ∧
    (sign defaultConfig emptyState descriptorSignA [originA] [13]).result
        = .Failure .InvalidSigningData ∧
    (sign defaultConfig emptyState descriptorSignA [originA]
        [13]).sentRequest = false := by
  have h1 := claim_C6_invalid_signing_data defaultConfig emptyState
    descriptorSignA [originA] (List.replicate 65 65) (by decide)
    (Or.inl (by decide))
  have h2 := claim_C6_invalid_signing_data defaultConfig emptyState
    descriptorSignA [originA] [13] (by decide)
    (Or.inr ⟨13, by decide, Or.inl (by decide)⟩)
  exact ⟨by decide, h1.1, h1.2.1, by decide, h2.1, h2.2.1⟩

/-- C7: for every Redemption in `no-cors` mode that is redirected
cross-origin: the operation keeps its original issuer identity through any
number of redirect hops, the token spent is exactly the one selected before
the redirect — no second token is spent, so the operation succeeds even when
the issuer's bucket held only one token — and the resulting signed record is
stored under the original issuer, not the redirect target. -/
theorem claim_C7_nocors_redemption_redirect (cfg : Config) (st : CoreState)
    (d : Descriptor) (issuer : Origin) (policy : RefreshPolicy)
    (hops : List Origin) (tok : Token) (rest : List Token)
    (rec : SignedRecord) (hg : gateCheck d = .Eligible)
    (hbucket : st.tokenStore issuer = tok :: rest)
    (hnorec : st.srrCache issuer d.topLevel = none) :
    (redeem cfg st d issuer .noCors policy hops true rec).result
        = .Success ∧
    (redeem cfg st d issuer .noCors policy hops true rec).finalIssuer
        = issuer ∧
    (redeem cfg st d issuer .noCors policy hops true rec).spentToken
        = some tok ∧
    (redeem cfg st d issuer .noCors policy hops true rec).state.tokenStore
        issuer = rest ∧
    (∀ o, o ≠ issuer →
      (redeem cfg st d issuer .noCors policy hops true rec).state.tokenStore
          o = st.tokenStore o) ∧
    (redeem cfg st d issuer .noCors policy hops true rec).state.srrCache
        issuer d.topLevel = some rec ∧
    (∀ i, i ≠ issuer → ∀ t,
      (redeem cfg st d issuer .noCors policy hops true rec).state.srrCache
          i t = st.srrCache i t) := by
  have hs := spendOne_cons st issuer tok rest hbucket
  have hfin : resolveIssuer issuer .noCors hops = issuer :=
    resolveIssuer_noCors issuer hops
  refine ⟨?_, ?_, ?_, ?_, ?_, ?_, ?_⟩
  · simp [redeem, hg, hs, hfin, finishRedemption, tryStore, hnorec]
  · simp [redeem, hg, hs, hfin, finishRedemption, tryStore, hnorec]
  · simp [redeem, hg, hs, hfin, finishRedemption, tryStore, hnorec]
  · simp [redeem, hg, hs, hfin, finishRedemption, tryStore, hnorec, putRecord]
  · intro o ho
    simp [redeem, hg, hs, hfin, finishRedemption, tryStore, hnorec, putRecord,
      ho]
  · simp [redeem, hg, hs, hfin, finishRedemption, tryStore, hnorec, putRecord]
  · intro i hi t
    simp [redeem, hg, hs, hfin, finishRedemption, tryStore, hnorec, putRecord,
      hi]

/-- C7 witness: the browsertest's single-token `no-cors` redemption through
the `a.test → b.test` redirect, concretely: it succeeds, spends exactly the
one pre-redirect token, and the record lands under `a.test`, not
`b.test`. -/
theorem claim_C7_witness :
    oneTokenState.tokenStore originA = [tokenFive] ∧
    (redeem defaultConfig oneTokenState descriptorRedeemA originA .noCors
        .keepExisting [originB] true recordOne).result = .Success ∧
    (redeem defaultConfig oneTokenState descriptorRedeemA originA .noCors
        .keepExisting [originB] true recordOne).finalIssuer = originA ∧
    (redeem defaultConfig oneTokenState descriptorRedeemA originA .noCors
        .keepExisting [originB] true recordOne).spentToken = some tokenFive ∧
    (redeem defaultConfig oneTokenState descriptorRedeemA originA .noCors
        .keepExisting [originB] true recordOne).state.tokenStore originA
        = [] ∧
    (redeem defaultConfig oneTokenState descriptorRedeemA originA .noCors
        .keepExisting [originB] true recordOne).state.srrCache originA
        originA = some recordOne ∧
    (redeem defaultConfig oneTokenState descriptorRedeemA originA .noCors
        .keepExisting [originB] true recordOne).state.srrCache originB
        originA = none := by
  have h := claim_C7_nocors_redemption_redirect defaultConfig oneTokenState
    descriptorRedeemA originA .keepExisting [originB] tokenFive [] recordOne
    (by decide) (by decide) (by decide)
  refine ⟨by decide, h.1, h.2.1, h.2.2.1, h.2.2.2.1, h.2.2.2.2.2.1, ?_⟩
  exact (h.2.2.2.2.2.2 originB (by decide) originA).trans (by decide)

/-- C8: for every Redemption against issuer X whose token-store bucket for X
is empty, the operation fails with `NoTokensAvailable` before the cache
refresh policy is resolved (the failure is the same for every refresh policy
and any cached record), even when buckets for other issuers are non-empty,
and the state is untouched. -/
theorem claim_C8_redemption_requires_tokens (cfg : Config) (st : CoreState)
    (d : Descriptor) (issuer : Origin) (mode : RequestMode)
    (policy : RefreshPolicy) (hops : List Origin) (serverOk : Bool)
    (rec : SignedRecord) (hg : gateCheck d = .Eligible)
    (hempty : st.tokenStore issuer = []) :
    (redeem cfg st d issuer mode policy hops serverOk rec).result
        = .Failure .NoTokensAvailable ∧
    (redeem cfg st d issuer mode policy hops serverOk rec).state = st ∧
    (redeem cfg st d issuer mode policy hops serverOk rec).spentToken
        = none := by
  have hs : spendOne st issuer = none := by simp [spendOne, hempty]
  refine ⟨?_, ?_, ?_⟩ <;> simp [redeem, hg, hs]

/-- C8 witness: the browsertest's redemption against `a.test` while only
`b.test` holds tokens, concretely: it fails with `NoTokensAvailable` even
with a cached record present and `refreshPolicy = refresh`. -/
theorem claim_C8_witness :
    tokensForBState.tokenStore originA = [] ∧
    tokensForBState.tokenStore originB ≠ [] ∧
    tokensForBState.srrCache originA originA = some recordOne ∧
    (redeem defaultConfig tokensForBState descriptorRedeemA originA .cors
        .refresh [] true recordTwo).result = .Failure .NoTokensAvailable ∧
    (redeem defaultConfig tokensForBState descriptorRedeemA originA .cors
        .refresh [] true recordTwo).state = tokensForBState := by
  have h := claim_C8_redemption_requires_tokens defaultConfig tokensForBState
    descriptorRedeemA originA .cors .refresh [] true recordTwo (by decide)
    (by decide)
  exact ⟨by decide, by decide, by decide, h.1, h.2.1⟩

/-- C10: for every Signing operation in the default non-hard-failure
configuration: issuers in the listed set with no cached signed record for the
top-level origin are silently skipped (every attached proof comes from a
cache hit), and the operation completes with `Succeeded` with the request
sent, even when no listed issuer had a cached record — the request goes out
unsigned rather than the operation aborting. -/
theorem claim_C10_signing_without_records_succeeds (cfg : Config)
    (st : CoreState) (d : Descriptor) (issuers : List Origin)
    (data : List Nat) (hg : gateCheck d = .Eligible)
    (hvalid : isValidSigningData cfg data = true)
    (hcfg : cfg.signingMissingRecordHardFailure = false) :
    (sign cfg st d issuers data).result = .Success ∧
    (sign cfg st d issuers data).sentRequest = true ∧
    (sign cfg st d issuers data).state = st ∧
    (∀ p ∈ (sign cfg st d issuers data).attachedProofs,
      st.srrCache p.1 d.topLevel = some p.2) ∧
    ((∀ i ∈ issuers, st.srrCache i d.topLevel = none) →
      (sign cfg st d issuers data).attachedProofs = []) := by
  refine ⟨?_, ?_, ?_, ?_, ?_⟩
  · simp [sign, hg, hvalid, hcfg]
  · simp [sign, hg, hvalid, hcfg]
  · simp [sign, hg, hvalid, hcfg]
  · intro p hp
    simp [sign, hg, hvalid, hcfg, List.mem_filterMap] at hp
    obtain ⟨i, hi, r, hr, hpr⟩ := hp
    cases hpr
    exact hr
  · intro hall
    simp [sign, hg, hvalid, hcfg, List.filterMap_eq_nil_iff]
    intro i hi
    simp [hall i hi]

/-- C10 witness: the browsertest's signing with no redemption record,
concretely: a Signing listing `a.test` over an empty record cache succeeds
with the request sent and no proof attached. -/
theorem claim_C10_witness :
    emptyState.srrCache originA descriptorSignA.topLevel = none ∧
    (sign defaultConfig emptyState descriptorSignA [originA] []).result
        = .Success ∧
    (sign defaultConfig emptyState descriptorSignA [originA]
        []).sentRequest = true ∧
    (sign defaultConfig emptyState descriptorSignA [originA]
        []).attachedProofs = [] := by
  have h := claim_C10_signing_without_records_succeeds defaultConfig
    emptyState descriptorSignA [originA] [] (by decide) (by decide) rfl
  exact ⟨by decide, h.1, h.2.1, h.2.2.2.2 (by decide)⟩

end TrustTokens
